import Mathlib

/-!
Verification of the mkpy3 command-line scripts.

This file gives a shallow embedding of the decision logic of
`mkpy3_tess_tpf_overlay_v3.py` and `check_mkpy3_v5.py`:

* `str2bool` — the argparse boolean-string converter;
* `check_file_exists` — the output-file guard, with Python's dynamic typing
  modelled by `PyVal` and the file system by a predicate `isfile`;
* `defaultArgs` / `buildCall` — the argparse defaults of the `__main__`
  block and the post-processing that produces the keyword arguments
  eventually handed to the rendering delegate (the string-encoded
  list/dictionary options, which no property below touches, are elided;
  Python floats are modelled by exact rationals);
* `tess_mission_check` — the try/except block validating that the opened
  file is a TESS TargetPixelFile;
* `checkStep` / `runChecks` — the pass/fail counting loop of the test
  runner, driven by the child processes' exit codes.

Process termination (`sys.exit`) is modelled by explicit result
constructors carrying the exit status and the printed diagnostic lines.
-/

namespace Mkpy3

/-- A Python runtime value, to the extent the scripts distinguish them
(used to model the `isinstance` assertions in `check_file_exists`). -/
inductive PyVal where
  | str (s : String)
  | bool (b : Bool)
  | int (n : Int)
  | none
deriving DecidableEq

def PyVal.isStr : PyVal → Bool
  | .str _ => true
  | _ => false

def PyVal.isBool : PyVal → Bool
  | .bool _ => true
  | _ => false

/-- Exceptions raised by the argument-parsing helpers. -/
inductive PyErr where
  | argumentTypeError (msg : String)
deriving DecidableEq

/-- Python's `str.lower()` restricted to the ASCII range (all the literals
`str2bool` compares against are ASCII), written with structural recursion
so that proofs can evaluate it. -/
def pyLower (s : String) : String :=
  String.mk (s.data.map Char.toLower)

/-- Embedding of `str2bool` (mkpy3_tess_tpf_overlay_v3.py, lines 198-210):
lowercase the input, return `True` on a truthy literal, `False` on a falsy
literal, and raise `argparse.ArgumentTypeError` otherwise. -/
def str2bool (v : String) : Except PyErr Bool :=
  if pyLower v ∈ ["yes", "true", "t", "y", "1"] then
    .ok true
  else if pyLower v ∈ ["no", "false", "f", "n", "0"] then
    .ok false
  else
    .error (.argumentTypeError "Boolean value expected.")

/-- Outcome of a call to `check_file_exists`: a failed `assert`, process
termination with an exit status and printed lines, or a normal return. -/
inductive GuardResult where
  | assertError
  | exit (code : Nat) (output : List String)
  | normal
deriving DecidableEq

/-- The `msg` local of `check_file_exists` (line 221). -/
def alreadyExistsMsg : String :=
  "Requested output file already exists (overwrite=False):\n"

/-- Embedding of `check_file_exists` (mkpy3_tess_tpf_overlay_v3.py,
lines 215-229).  `isfile` models `os.path.isfile`: whether a regular file
exists at the given path.  The two `isinstance` assertions are checked
first; then, when `overwrite` is false and the file exists, the function
prints an error block and exits with status 1; otherwise it no-ops. -/
def check_file_exists (filename overwrite : PyVal)
    (isfile : String → Bool) : GuardResult :=
  match filename with
  | .str f =>
    match overwrite with
    | .bool ow =>
      if !ow then
        if isfile f then
          .exit 1 ["\n***** ERROR *****\n\n" ++ alreadyExistsMsg,
                   "new_filename=\x27" ++ f ++ "\x27\n"]
        else
          .normal
      else
        .normal
    | _ => .assertError
  | _ => .assertError

/-- The scalar command-line options of the overlay script, as bound after
`parser.parse_args()` (mkpy3_tess_tpf_overlay_v3.py, lines 245-363).
Python floats are modelled as exact rationals. -/
structure Args where
  tpf_filename : Option String
  frame : Int
  survey : String
  width_height_arcmin : ℚ
  shrink : ℚ
  show_plot : Bool
  plot_file : String
  overwrite : Bool
  title : Option String
  percentile : ℚ
  cmap : Option String
  print_gaia_dr2 : Bool
  print_vsx : Bool
  sexagesimal : Bool
  verbose : Bool
deriving DecidableEq

/-- The values each option takes when its flag is absent, read off the
`default=` of each `parser.add_argument` call (lines 247-335).  Note
`--cmap` is declared with `default=None` (line 285) even though its help
string documents `'gray_r'`. -/
def defaultArgs : Args where
  tpf_filename := none
  frame := 0
  survey := "2MASS-J"
  width_height_arcmin := 6.0
  shrink := 1.0
  show_plot := true
  plot_file := "mkpy3_plot.png"
  overwrite := false
  title := none
  percentile := 99.5
  cmap := none
  print_gaia_dr2 := true
  print_vsx := true
  sexagesimal := false
  verbose := false

/-- The keyword arguments passed to `mkpy3_tess_tpf_overlay_v3` by the
`__main__` block (lines 397-420), restricted to the scalar options. -/
structure CallParams where
  frame : Int
  survey : String
  width_height_arcmin : ℚ
  shrink : ℚ
  show_plot : Bool
  plot_file : String
  overwrite : Bool
  title : Option String
  percentile : ℚ
  cmap : Option String
  print_gaia_dr2 : Bool
  print_vsx : Bool
  sexagesimal : Bool
  verbose : Bool
deriving DecidableEq

/-- Embedding of the `__main__` post-processing between `parse_args` and the
delegate call (lines 342-420): when no `--tpf_filename` was given the
script falls back to the XZ Cyg cutout, rescales `shrink` by `0.8` and
overwrites `title`; otherwise every option is passed through unchanged. -/
def buildCall (args : Args) : CallParams :=
  let adjusted : ℚ × Option String :=
    match args.tpf_filename with
    | some _ => (args.shrink, args.title)
    | none => (args.shrink * 0.8, some "XZ Cyg : TESS : Sector 14")
  { frame := args.frame
    survey := args.survey
    width_height_arcmin := args.width_height_arcmin
    shrink := adjusted.1
    show_plot := args.show_plot
    plot_file := args.plot_file
    overwrite := args.overwrite
    title := adjusted.2
    percentile := args.percentile
    cmap := args.cmap
    print_gaia_dr2 := args.print_gaia_dr2
    print_vsx := args.print_vsx
    sexagesimal := args.sexagesimal
    verbose := args.verbose }

/-- The opened target pixel file, as far as the mission check inspects it:
whether touching its attributes (`tpf.path`, `tpf.mission`) raises, and
its `mission` string. -/
structure Tpf where
  access_raises : Bool
  mission : String
deriving DecidableEq

/-- Outcome of the mission check: `sys.exit(1)` with printed diagnostics,
or fall through to the delegate call. -/
inductive TessCheckResult where
  | exitFail (code : Nat) (output : List String)
  | proceed
deriving DecidableEq

/-- Python's rendering of the `tpf_filename` variable in the `except`
branch's first `print` (`str(None)` is `"None"`). -/
def optRepr : Option String → String
  | Option.none => "None"
  | some s => s

/-- The lines printed by the `except` branch (lines 389-393). -/
def tessDiagnostic (tpf_filename : Option String) : List String :=
  [optRepr tpf_filename ++ " =tpf_filename",
   "^--- *** ERROR *** This file does not appear to be a TESS " ++
     "TargetPixelFile",
   "",
   "Bye...\n"]

/-- Embedding of the try/except block (lines 383-395): if accessing the TPF
raises, or its mission is not `'TESS'` (the `assert` fires), the script
prints a diagnostic and exits with status 1; otherwise it proceeds.  The
prints of the successful path are elided. -/
def tess_mission_check (tpf_filename : Option String) (tpf : Tpf) :
    TessCheckResult :=
  if tpf.access_raises then
    .exitFail 1 (tessDiagnostic tpf_filename)
  else if tpf.mission = "TESS" then
    .proceed
  else
    .exitFail 1 (tessDiagnostic tpf_filename)

/-- The pass/fail counters of the test runner (check_mkpy3_v5.py,
lines 30-31). -/
structure RunState where
  good : Nat
  bad : Nat
deriving DecidableEq

/-- One iteration of the test runner's loop (lines 37-49): bump `bad` when
the child process's exit code is nonzero, `good` otherwise. -/
def checkStep (s : RunState) (returncode : Int) : RunState :=
  if returncode ≠ 0 then
    { s with bad := s.bad + 1 }
  else
    { s with good := s.good + 1 }

/-- The whole loop: fold `checkStep` over the exit codes of the discovered
scripts, starting from `good = 0`, `bad = 0`. -/
def runChecks (codes : List Int) : RunState :=
  codes.foldl checkStep { good := 0, bad := 0 }

/-- File-system model with a single existing file `out.png`. -/
def fsWithOut : String → Bool := fun s => s == "out.png"

/-- File-system model with no existing files. -/
def fsEmpty : String → Bool := fun _ => false

/-- Arguments out of the documented ranges of `--percentile` and
`--shrink`. -/
def outOfRangeArgs : Args :=
  { defaultArgs with percentile := 150, shrink := -2 }

/-- Default arguments with an explicit `--tpf_filename`. -/
def withFileArgs : Args :=
  { defaultArgs with tpf_filename := some "tpf.fits", title := some "my title" }

/-- Each step of the loop grows `good + bad` by exactly one. -/
theorem foldl_checkStep_sum (codes : List Int) (s : RunState) :
    (codes.foldl checkStep s).good + (codes.foldl checkStep s).bad =
      s.good + s.bad + codes.length := by
  induction codes generalizing s with
  | nil => simp
  | cons c cs ih =>
    simp only [List.foldl_cons, List.length_cons]
    rw [ih]
    by_cases h : c = 0 <;> simp [checkStep, h] <;> omega

/-- The truthy and falsy literal sets of `str2bool` are disjoint. -/
theorem falsy_not_truthy :
    ∀ x ∈ (["no", "false", "f", "n", "0"] : List String),
      x ∉ (["yes", "true", "t", "y", "1"] : List String) := by
  decide

/-- C2: for every string whose lowercase form is a truthy literal,
`str2bool` returns `true`; for every string whose lowercase form is a falsy
literal it returns `false`; for every other string it raises
`argparse.ArgumentTypeError` — so it never returns a non-boolean value. -/
theorem str2bool_spec (v : String) :
    (pyLower v ∈ ["yes", "true", "t", "y", "1"] → str2bool v = .ok true) ∧
    (pyLower v ∈ ["no", "false", "f", "n", "0"] → str2bool v = .ok false) ∧
    (pyLower v ∉ ["yes", "true", "t", "y", "1"] →
      pyLower v ∉ ["no", "false", "f", "n", "0"] →
      str2bool v = .error (.argumentTypeError "Boolean value expected.")) := by
  refine ⟨fun h => ?_, fun h => ?_, fun h1 h2 => ?_⟩
  · simp [str2bool, h]
  · have h1 := falsy_not_truthy _ h
    simp [str2bool, h1, h]
  · simp [str2bool, h1, h2]

/-- Witness for C2 at the inputs `"YES"`, `"No"` and `"maybe"`. -/
theorem str2bool_spec_witness :
    str2bool "YES" = .ok true ∧ str2bool "No" = .ok false ∧
      str2bool "maybe" = .error (.argumentTypeError "Boolean value expected.") :=
  ⟨(str2bool_spec "YES").1 (by decide),
   (str2bool_spec "No").2.1 (by decide),
   (str2bool_spec "maybe").2.2 (by decide) (by decide)⟩

/-- C1: for every string filename with `overwrite = False`, if a regular
file exists at that path then `check_file_exists` exits the process with
status 1, and the first diagnostic line it prints contains the substring
`"already exists"`. -/
theorem check_file_exists_blocks (f : String) (isfile : String → Bool)
    (h : isfile f = true) :
    ∃ pre post rest,
      check_file_exists (.str f) (.bool false) isfile =
        .exit 1 ((pre ++ "already exists" ++ post) :: rest) := by
  refine ⟨"\n***** ERROR *****\n\nRequested output file ",
    " (overwrite=False):\n", ["new_filename=\x27" ++ f ++ "\x27\n"], ?_⟩
  simp [check_file_exists, h, alreadyExistsMsg]

/-- Witness for C1: `out.png` pre-exists in `fsWithOut` and the guard
exits with status 1 on `("out.png", False)`. -/
theorem check_file_exists_blocks_witness :
    fsWithOut "out.png" = true ∧
      ∃ pre post rest,
        check_file_exists (.str "out.png") (.bool false) fsWithOut =
          .exit 1 ((pre ++ "already exists" ++ post) :: rest) :=
  ⟨by decide, check_file_exists_blocks "out.png" fsWithOut (by decide)⟩

/-- C3: for every string filename, `check_file_exists` returns normally
whenever `overwrite = True`, and, whenever no file exists at the path,
returns normally regardless of the overwrite flag. -/
theorem check_file_exists_no_block (f : String) (isfile : String → Bool) :
    check_file_exists (.str f) (.bool true) isfile = .normal ∧
    (isfile f = false →
      ∀ b : Bool, check_file_exists (.str f) (.bool b) isfile = .normal) := by
  refine ⟨rfl, fun h b => ?_⟩
  cases b
  · simp [check_file_exists, h]
  · rfl

/-- Witness for C3: `new.png` does not exist in `fsEmpty` and the guard
returns normally on `("new.png", True)` and on `("new.png", False)`. -/
theorem check_file_exists_no_block_witness :
    check_file_exists (.str "new.png") (.bool true) fsEmpty = .normal ∧
      fsEmpty "new.png" = false ∧
      check_file_exists (.str "new.png") (.bool false) fsEmpty = .normal :=
  ⟨(check_file_exists_no_block "new.png" fsEmpty).1, rfl,
   (check_file_exists_no_block "new.png" fsEmpty).2 rfl false⟩

/-- C10: `check_file_exists` asserts its argument types: any call where the
filename is not a `str` or the overwrite flag is not a `bool` raises
`AssertionError` (whatever the file system holds, so before any existence
check or exit); with a `str` and a `bool` the assertions never fire. -/
theorem check_file_exists_type_assertions :
    (∀ (filename overwrite : PyVal) (isfile : String → Bool),
      PyVal.isStr filename = false ∨ PyVal.isBool overwrite = false →
      check_file_exists filename overwrite isfile = .assertError) ∧
    (∀ (s : String) (b : Bool) (isfile : String → Bool),
      check_file_exists (.str s) (.bool b) isfile ≠ .assertError) := by
  constructor
  · intro filename overwrite isfile h
    rcases h with h | h
    · cases filename <;> simp_all [check_file_exists, PyVal.isStr]
    · cases filename <;> cases overwrite <;>
        simp_all [check_file_exists, PyVal.isBool]
  · intro s b isfile
    cases b
    · by_cases h : isfile s <;> simp [check_file_exists, h]
    · simp [check_file_exists]

/-- Witness for C10: an `int` filename trips the assertion; a `str`
filename with a `bool` flag does not. -/
theorem check_file_exists_type_assertions_witness :
    check_file_exists (.int 3) (.bool true) fsEmpty = .assertError ∧
      check_file_exists (.str "a") (.bool true) fsEmpty ≠ .assertError :=
  ⟨check_file_exists_type_assertions.1 (.int 3) (.bool true) fsEmpty
      (Or.inl rfl),
   check_file_exists_type_assertions.2 "a" true fsEmpty⟩

/-- C4: the defaults bound when a flag is absent: `survey` is `'2MASS-J'`,
`percentile` is `99.5` and `plot_file` is `'mkpy3_plot.png'` as documented,
but `cmap` defaults to `None` — not the documented `'gray_r'` — and that
`None` is what reaches the rendering delegate. -/
theorem cli_defaults_cmap_divergence :
    defaultArgs.survey = "2MASS-J" ∧
    defaultArgs.percentile = 99.5 ∧
    defaultArgs.plot_file = "mkpy3_plot.png" ∧
    defaultArgs.cmap = Option.none ∧
    (buildCall defaultArgs).cmap = Option.none :=
  ⟨rfl, rfl, rfl, rfl, rfl⟩

/-- C8: `percentile` and `shrink` undergo no range validation: for every
argument record — any rational values included — the call to the delegate
is built, `percentile` is passed through unchanged, and `shrink` is passed
through unchanged when a TPF filename was given, else scaled by `0.8`. -/
theorem shrink_percentile_no_validation (args : Args) :
    (buildCall args).percentile = args.percentile ∧
    (if args.tpf_filename.isSome then
      (buildCall args).shrink = args.shrink
    else
      (buildCall args).shrink = args.shrink * 0.8) := by
  cases h : args.tpf_filename <;> simp [buildCall, h]

/-- C9: when no `--tpf_filename` is given, the shrink passed to the
delegate is `0.8` times the command-line shrink and the title is the fixed
string `'XZ Cyg : TESS : Sector 14'`, overriding any `--title` value; when
a TPF filename is given, shrink and title pass through unchanged. -/
theorem default_target_overrides (args : Args) :
    (args.tpf_filename = Option.none →
      (buildCall args).shrink = 0.8 * args.shrink ∧
      (buildCall args).title = some "XZ Cyg : TESS : Sector 14") ∧
    (∀ fn, args.tpf_filename = some fn →
      (buildCall args).shrink = args.shrink ∧
      (buildCall args).title = args.title) := by
  constructor
  · intro h
    simp [buildCall, h, mul_comm]
  · intro fn h
    simp [buildCall, h]

/-- Witness for C9: the default-target run scales shrink and forces the
title even though `withFileArgs` shows the pass-through branch. -/
theorem default_target_overrides_witness :
    ((buildCall defaultArgs).shrink = 0.8 * defaultArgs.shrink ∧
      (buildCall defaultArgs).title = some "XZ Cyg : TESS : Sector 14") ∧
    ((buildCall withFileArgs).shrink = withFileArgs.shrink ∧
      (buildCall withFileArgs).title = withFileArgs.title) :=
  ⟨(default_target_overrides defaultArgs).1 rfl,
   (default_target_overrides withFileArgs).2 "tpf.fits" rfl⟩

/-- C7: when accessing the opened TPF raises or its mission is not
`'TESS'`, the script prints a (nonempty) diagnostic and exits with
status 1. -/
theorem tess_check_fails (fn : Option String) (tpf : Tpf)
    (h : tpf.access_raises = true ∨ tpf.mission ≠ "TESS") :
    tess_mission_check fn tpf = .exitFail 1 (tessDiagnostic fn) ∧
      tessDiagnostic fn ≠ [] := by
  refine ⟨?_, by simp [tessDiagnostic]⟩
  rcases h with h | h
  · simp [tess_mission_check, h]
  · cases ha : tpf.access_raises <;> simp [tess_mission_check, ha, h]

/-- Witness for C7: a readable non-TESS product (mission `'Kepler'`) makes
the script exit with status 1. -/
theorem tess_check_fails_witness :
    tess_mission_check Option.none ⟨false, "Kepler"⟩ =
      .exitFail 1 (tessDiagnostic Option.none) :=
  (tess_check_fails Option.none ⟨false, "Kepler"⟩ (Or.inr (by decide))).1

/-- C5: after the loop over discovered scripts, and already after each of
its iterations, the pass count plus the fail count equals the number of
scripts processed so far — in particular `good + bad = len(filel)` at the
end. -/
theorem run_counts_invariant (codes : List Int) :
    (∀ k : Nat,
      (runChecks (codes.take k)).good + (runChecks (codes.take k)).bad =
        (codes.take k).length) ∧
    (runChecks codes).good + (runChecks codes).bad = codes.length := by
  constructor
  · intro k
    simpa [runChecks] using foldl_checkStep_sum (codes.take k) ⟨0, 0⟩
  · simpa [runChecks] using foldl_checkStep_sum codes ⟨0, 0⟩

/-- C6: one loop iteration classifies a script as fail exactly when its
exit code is nonzero and as pass exactly when it is zero — the increments
are a function of the exit code alone. -/
theorem classification_by_exit_code (s : RunState) (rc : Int) :
    (checkStep s rc).bad = s.bad + (if rc = 0 then 0 else 1) ∧
    (checkStep s rc).good = s.good + (if rc = 0 then 1 else 0) := by
  by_cases h : rc = 0 <;> simp [checkStep, h]

end Mkpy3
